import Mathlib

/-!
Shallow embedding of the UHI (urban heat island) pipeline of `src/UHI.js`.

The script is a Google Earth Engine program: a raster over a fixed grid is
modelled as a function from pixel indices to optional rational values
(`none` is a masked / no-data pixel), a geometry as a boolean pixel set on
the same grid, and a Landsat scene as a record of per-pixel raw band
values (Landsat Collection 2 Level 2 bands are unsigned 16-bit digital
numbers, so band values are naturals).  The platform primitives the script
calls (`normalizedDifference`, `reduceRegion` with a mean reducer and a
`maxPixels` cap, the `median` collection reducer) are not part of the
repository; they are modelled from the spec where so marked.
-/

namespace UHI

/-- A single-band raster over a grid of `n` pixels; `none` is a masked
(no-data) pixel. -/
abbrev Raster (n : ℕ) := Fin n → Option ℚ

/-- A geometry rasterised onto the grid: `true` exactly at the pixels the
geometry covers. -/
abbrev Geom (n : ℕ) := Fin n → Bool

/-- One Landsat scene: raw digital numbers of the bands the script reads
(`ST_B10` thermal, `SR_B4` red, `SR_B5` near infrared, `SR_B6` shortwave
infrared).  Collection 2 Level 2 bands are unsigned 16-bit integers, hence
natural numbers; `none` is a masked pixel. -/
structure Scene (n : ℕ) where
  thermal : Fin n → Option ℕ
  red : Fin n → Option ℕ
  nir : Fin n → Option ℕ
  swir : Fin n → Option ℕ

/-! ## Platform raster operations -/

/-- `ee.Image.updateMask`: keep a pixel where the mask image is valid and
nonzero, mask it everywhere else. -/
def updateMaskR {n : ℕ} (r m : Raster n) : Raster n := fun i =>
  match m i with
  | some v => if v = 0 then none else r i
  | none => none

/-- `ee.Image.selfMask`: mask out the zero-valued pixels of an image. -/
def selfMask {n : ℕ} (r : Raster n) : Raster n := fun i =>
  match r i with
  | some v => if v = 0 then none else some v
  | none => none

/-- `ee.Image.not`: logical negation per pixel (1 where the value is 0,
0 where it is nonzero); masked pixels stay masked. -/
def eeNot {n : ℕ} (r : Raster n) : Raster n := fun i =>
  (r i).map (fun v => if v = 0 then 1 else 0)

/-- `ee.Image.where(test, value)`: replace a pixel by `value` where the
test image is valid and nonzero; the input footprint is kept, so a masked
input pixel stays masked. -/
def eeWhere {n : ℕ} (img test : Raster n) (value : ℚ) : Raster n := fun i =>
  match img i, test i with
  | some w, some t => if t = 0 then some w else some value
  | some w, none => some w
  | none, _ => none

/-- `ee.Image.subtract` by a constant. -/
def subConst {n : ℕ} (r : Raster n) (c : ℚ) : Raster n := fun i =>
  (r i).map (fun v => v - c)

/-- `ee.Image.add` by a constant (used only to state shift invariance). -/
def addConst {n : ℕ} (r : Raster n) (c : ℚ) : Raster n := fun i =>
  (r i).map (fun v => v + c)

/-- `ee.Image.clip`: mask every pixel outside the geometry. -/
def clip {n : ℕ} (r : Raster n) (g : Geom n) : Raster n := fun i =>
  if g i then r i else none

/-! ## Region reduction -/

/-- The pixels of the geometry carrying a valid raster value. -/
def validPixels {n : ℕ} (r : Raster n) (g : Geom n) : Finset (Fin n) :=
  Finset.univ.filter (fun i => (g i && (r i).isSome) = true)

/-- Modelled from the spec: the platform mean reducer over a region
(`reduceRegion` with `ee.Reducer.mean()`), absent from src.  The mean of
the valid pixels of the raster inside the geometry; undefined when the
geometry holds no valid pixel. -/
def regionMean {n : ℕ} (r : Raster n) (g : Geom n) : Option ℚ :=
  let s := validPixels r g
  if s.card = 0 then none
  else some ((∑ i ∈ s, (r i).getD 0) / s.card)

/-- The number of grid pixels a geometry makes a region reduction touch. -/
def geomPixelCount {n : ℕ} (g : Geom n) : ℕ :=
  (Finset.univ.filter (fun i => g i = true)).card

/-- The aggregation failure of a region reduction. -/
inductive AggError : Type where
  | aggregationLimitExceeded : AggError
deriving DecidableEq

/-- Modelled from the spec: `reduceRegion` with a `maxPixels` cap, absent
from src — when the pixel count implied by the geometry exceeds the cap
the aggregation fails explicitly with an aggregation-limit error instead
of silently subsampling; otherwise it returns the region mean. -/
def reduceRegionMean {n : ℕ} (r : Raster n) (g : Geom n) (maxPixels : ℕ) :
    Except AggError (Option ℚ) :=
  if geomPixelCount g > maxPixels then .error .aggregationLimitExceeded
  else .ok (regionMean r g)

/-! ## Temporal composites -/

/-- Modelled from the spec: the platform per-pixel mean across scenes
(`ImageCollection.mean`), absent from src.  Masked scene values are
skipped; a pixel valid in no scene is masked. -/
def meanComposite (vals : List (Option ℚ)) : Option ℚ :=
  let v := vals.filterMap id
  if v.length = 0 then none else some (v.sum / v.length)

/-- Modelled from the spec: the platform per-pixel median across scenes
(`ImageCollection.median`), absent from src.  Masked values are skipped;
the median of an even count is the mean of the two middle values. -/
def medianQ (l : List ℚ) : Option ℚ :=
  let s := l.insertionSort (· ≤ ·)
  if l.length = 0 then none
  else if l.length % 2 = 1 then s[l.length / 2]?
  else
    match s[l.length / 2 - 1]?, s[l.length / 2]? with
    | some a, some b => some ((a + b) / 2)
    | _, _ => none

/-- Median composite of one band across the scene list, at one pixel. -/
def medBand {n : ℕ} (band : Scene n → Fin n → Option ℕ) (scenes : List (Scene n))
    (i : Fin n) : Option ℚ :=
  medianQ ((scenes.filterMap (fun s => band s i)).map (fun v : ℕ => (v : ℚ)))

/-! ## The pipeline of src/UHI.js -/

/-- The thermal-band scale factor `0.00341802` of `calculateLST`. -/
def scaleFactor : ℚ := 341802 / 100000000

/-- The thermal-band offset `149.0` of `calculateLST`. -/
def thermalOffset : ℚ := 149

/-- `calculateLST` (src/UHI.js line 26): raw `ST_B10` digital number to
Celsius, `DN * 0.00341802 + 149.0 - 273.15`. -/
def calculateLST (t : ℕ) : ℚ := (t : ℚ) * scaleFactor + thermalOffset - 27315 / 100

/-- The per-scene LST band added by `calculateLST`, at one pixel. -/
def lstScene {n : ℕ} (s : Scene n) (i : Fin n) : Option ℚ :=
  (s.thermal i).map calculateLST

/-- `lstCollection.select('LST').mean()` (src/UHI.js line 37, before the
clip): the per-pixel mean of the per-scene LST rasters. -/
def lstMeanRaw {n : ℕ} (scenes : List (Scene n)) : Raster n := fun i =>
  meanComposite (scenes.map (fun s => lstScene s i))

/-- `lstMean` (src/UHI.js line 37): the per-pixel mean of the per-scene
LST rasters, clipped to the boundary. -/
def lstMean {n : ℕ} (scenes : List (Scene n)) (boundary : Geom n) : Raster n :=
  clip (lstMeanRaw scenes) boundary

/-- A per-pixel median LST composite (never built by the script; it is
stated only to witness that the mean composite differs from a median). -/
def lstMedian {n : ℕ} (scenes : List (Scene n)) (i : Fin n) : Option ℚ :=
  medianQ ((scenes.filterMap (fun s => s.thermal i)).map calculateLST)

/-- Modelled from the spec: the platform `normalizedDifference`, absent
from src — `(first − second) / (first + second)` with a zero denominator
yielding an explicit no-data pixel. -/
def normalizedDifference (a b : Option ℚ) : Option ℚ :=
  match a, b with
  | some x, some y => if x + y = 0 then none else some ((x - y) / (x + y))
  | _, _ => none

/-- `ndvi` (src/UHI.js line 52): normalized difference of the NIR and red
bands of the median composite. -/
def ndvi {n : ℕ} (scenes : List (Scene n)) : Raster n := fun i =>
  normalizedDifference (medBand Scene.nir scenes i) (medBand Scene.red scenes i)

/-- `ndbi` (src/UHI.js line 55): normalized difference of the SWIR and
NIR bands of the median composite. -/
def ndbi {n : ℕ} (scenes : List (Scene n)) : Raster n := fun i =>
  normalizedDifference (medBand Scene.swir scenes i) (medBand Scene.nir scenes i)

/-- `ndbi.gt(0.1).and(ndvi.lt(0.2))` (src/UHI.js line 58, before
`selfMask`): 1 where the urban predicate holds, 0 where it fails, masked
where either index is masked. -/
def urbanMaskRaw {n : ℕ} (scenes : List (Scene n)) : Raster n := fun i =>
  match ndbi scenes i, ndvi scenes i with
  | some d, some v => some (if d > 1 / 10 ∧ v < 2 / 10 then 1 else 0)
  | _, _ => none

/-- `urbanMask` (src/UHI.js line 58): the urban predicate image after
`selfMask`. -/
def urbanMask {n : ℕ} (scenes : List (Scene n)) : Raster n :=
  selfMask (urbanMaskRaw scenes)

/-- `ruralMask` (src/UHI.js line 65): `ndvi.gt(0.3).and(ndbi.lt(-0.1))`,
not self-masked. -/
def ruralMask {n : ℕ} (scenes : List (Scene n)) : Raster n := fun i =>
  match ndvi scenes i, ndbi scenes i with
  | some v, some d => some (if v > 3 / 10 ∧ d < -(1 / 10) then 1 else 0)
  | _, _ => none

/-- `urbanTemp` (src/UHI.js line 69): region mean over the boundary of
the LST composite restricted to the urban mask. -/
def urbanTemp {n : ℕ} (scenes : List (Scene n)) (boundary : Geom n) : Option ℚ :=
  regionMean (updateMaskR (lstMean scenes boundary) (urbanMask scenes)) boundary

/-- `ruralTemp` (src/UHI.js line 78): region mean over the boundary of
the LST composite restricted to the rural mask. -/
def ruralTemp {n : ℕ} (scenes : List (Scene n)) (boundary : Geom n) : Option ℚ :=
  regionMean (updateMaskR (lstMean scenes boundary) (ruralMask scenes)) boundary

/-- JavaScript number coercion of an evaluated server value: `null`
coerces to `0` in arithmetic (`Number(null) = 0`). -/
def jsNumber (v : Option ℚ) : ℚ :=
  match v with
  | some x => x
  | none => 0

/-- `uhi` (src/UHI.js line 147): the client-side callback computes
`uTemp - rTemp` on the evaluated values with no null guard, so absent
operands coerce to 0. -/
def uhiStat (uTemp rTemp : Option ℚ) : ℚ := jsNumber uTemp - jsNumber rTemp

/-- `uhiIntensity` (src/UHI.js lines 86–89): the per-pixel UHI raster,
`lstMean.where(urbanMask.not(), 0).subtract(ruralMean).updateMask(urbanMask)`. -/
def uhiIntensity {n : ℕ} (scenes : List (Scene n)) (boundary : Geom n)
    (ruralMeanVal : ℚ) : Raster n :=
  updateMaskR
    (subConst (eeWhere (lstMean scenes boundary) (eeNot (urbanMask scenes)) 0) ruralMeanVal)
    (urbanMask scenes)

/-- `cityLST` (src/UHI.js line 111): region mean of the clipped LST
composite over a city buffer, with no land-cover masking. -/
def cityLST {n : ℕ} (scenes : List (Scene n)) (boundary : Geom n)
    (buffer : Geom n) : Option ℚ :=
  regionMean (lstMean scenes boundary) buffer

/-- A pixel belongs to a mask image when its value there is valid and
nonzero (the platform convention used by `updateMask`). -/
def maskHolds {n : ℕ} (m : Raster n) (i : Fin n) : Bool :=
  match m i with
  | some x => decide (x ≠ 0)
  | none => false

/-! ## Concrete inputs used to witness the theorems -/

/-- The synthetic 4-pixel LST raster of the spec: urban pixels 30 and 34,
rural pixels 24 and 26. -/
def exLst : Raster 4 := ![some 30, some 34, some 24, some 26]

/-- The urban mask of the synthetic raster (self-masked style: valid and
1 exactly on the two urban pixels). -/
def exUrban : Raster 4 := ![some 1, some 1, none, none]

/-- The rural mask of the synthetic raster (0/1 style: 1 exactly on the
two rural pixels). -/
def exRural : Raster 4 := ![some 0, some 0, some 1, some 1]

/-- A geometry covering the whole 4-pixel grid. -/
def exG : Geom 4 := fun _ => true

/-- A single-pixel scene with red 2, NIR 6, SWIR 2: its NDVI is 1/2 and
its NDBI is -1/2, so the pixel is rural. -/
def exSceneRural : Scene 1 :=
  ⟨fun _ => some 44000, fun _ => some 2, fun _ => some 6, fun _ => some 2⟩

/-- A single-pixel scene with red 6, NIR 2, SWIR 6: its NDVI is -1/2 and
its NDBI is 1/2, so the pixel is urban. -/
def exSceneUrban : Scene 1 :=
  ⟨fun _ => some 44000, fun _ => some 6, fun _ => some 2, fun _ => some 6⟩

/-- A single-pixel scene whose red, NIR and SWIR bands are all zero, so
both normalized-difference denominators vanish. -/
def exSceneZero : Scene 1 :=
  ⟨fun _ => some 44000, fun _ => some 0, fun _ => some 0, fun _ => some 0⟩

/-- Three single-pixel scenes with thermal digital numbers 0, 0, 30000:
the mean LST composite and a median LST composite disagree on them. -/
def exScenesSkew : List (Scene 1) :=
  [⟨fun _ => some 0, fun _ => some 1, fun _ => some 1, fun _ => some 1⟩,
   ⟨fun _ => some 0, fun _ => some 1, fun _ => some 1, fun _ => some 1⟩,
   ⟨fun _ => some 30000, fun _ => some 1, fun _ => some 1, fun _ => some 1⟩]

/-- A boundary covering only the first two pixels of the 4-pixel grid. -/
def exBoundary : Geom 4 := ![true, true, false, false]

/-- A city buffer covering only the last two pixels of the 4-pixel grid,
disjoint from `exBoundary`. -/
def exBuffer : Geom 4 := ![false, false, true, true]

/-- One fully valid 4-pixel scene, used for the city-statistic witness. -/
def exScene4 : Scene 4 :=
  ⟨fun _ => some 40000, fun _ => some 2, fun _ => some 6, fun _ => some 2⟩

end UHI

namespace UHI

/-! ## Helper lemmas -/

theorem mem_of_getElemQ {l : List ℚ} {k : ℕ} {a : ℚ} (h : l[k]? = some a) : a ∈ l := by
  have hk : k < l.length := by
    by_contra hc
    rw [List.getElem?_eq_none (by omega)] at h
    exact Option.noConfusion h
  rw [List.getElem?_eq_getElem hk] at h
  exact Option.some_injective _ h ▸ l.getElem_mem hk

theorem medianQ_nonneg {l : List ℚ} (h : ∀ x ∈ l, 0 ≤ x) {v : ℚ}
    (hv : medianQ l = some v) : 0 ≤ v := by
  have hmem : ∀ (k : ℕ) (a : ℚ), (l.insertionSort (· ≤ ·))[k]? = some a → 0 ≤ a := by
    intro k a ha
    exact h a ((List.perm_insertionSort (· ≤ ·) l).subset (mem_of_getElemQ ha))
  simp only [medianQ] at hv
  split at hv
  · exact Option.noConfusion hv
  · split at hv
    · exact hmem _ _ hv
    · split at hv
      · rename_i a b ha hb
        have h1 := hmem _ _ ha
        have h2 := hmem _ _ hb
        obtain rfl : (a + b) / 2 = v := Option.some_injective _ hv
        positivity
      · exact Option.noConfusion hv

theorem medBand_nonneg {n : ℕ} (band : Scene n → Fin n → Option ℕ)
    (scenes : List (Scene n)) (i : Fin n) {v : ℚ}
    (hv : medBand band scenes i = some v) : 0 ≤ v := by
  refine medianQ_nonneg ?_ hv
  intro x hx
  obtain ⟨m, -, rfl⟩ := List.mem_map.mp hx
  exact Nat.cast_nonneg m

theorem normalizedDifference_bounds {a b v : ℚ} (ha : 0 ≤ a) (hb : 0 ≤ b)
    (hv : normalizedDifference (some a) (some b) = some v) : -1 ≤ v ∧ v ≤ 1 := by
  simp only [normalizedDifference] at hv
  split at hv
  · exact Option.noConfusion hv
  · rename_i hab
    obtain rfl : (a - b) / (a + b) = v := Option.some_injective _ hv
    have hpos : 0 < a + b := lt_of_le_of_ne (by linarith) (Ne.symm hab)
    constructor
    · rw [le_div_iff₀ hpos]; linarith
    · rw [div_le_one hpos]; linarith

theorem maskHolds_urban {n : ℕ} {scenes : List (Scene n)} {i : Fin n} {d v : ℚ}
    (hd : ndbi scenes i = some d) (hv : ndvi scenes i = some v) :
    maskHolds (urbanMask scenes) i = decide (d > 1 / 10 ∧ v < 2 / 10) := by
  unfold maskHolds urbanMask selfMask urbanMaskRaw
  simp only [hd, hv]
  rcases Classical.em (d > 1 / 10 ∧ v < 2 / 10) with h | h
  · rw [if_pos h, decide_eq_true h]
    norm_num
  · rw [if_neg h, decide_eq_false h]
    norm_num

theorem maskHolds_urban_none {n : ℕ} {scenes : List (Scene n)} {i : Fin n}
    (h : ndbi scenes i = none ∨ ndvi scenes i = none) :
    maskHolds (urbanMask scenes) i = false := by
  unfold maskHolds urbanMask selfMask urbanMaskRaw
  rcases h with h | h
  · simp [h]
  · rcases hb : ndbi scenes i with - | d
    · simp
    · simp [h]

theorem maskHolds_rural {n : ℕ} {scenes : List (Scene n)} {i : Fin n} {d v : ℚ}
    (hd : ndbi scenes i = some d) (hv : ndvi scenes i = some v) :
    maskHolds (ruralMask scenes) i = decide (v > 3 / 10 ∧ d < -(1 / 10)) := by
  unfold maskHolds ruralMask
  simp only [hd, hv]
  rcases Classical.em (v > 3 / 10 ∧ d < -(1 / 10)) with h | h
  · rw [if_pos h, decide_eq_true h]
    norm_num
  · rw [if_neg h, decide_eq_false h]
    norm_num

theorem maskHolds_rural_none {n : ℕ} {scenes : List (Scene n)} {i : Fin n}
    (h : ndbi scenes i = none ∨ ndvi scenes i = none) :
    maskHolds (ruralMask scenes) i = false := by
  unfold maskHolds ruralMask
  rcases h with h | h
  · rcases hv : ndvi scenes i with - | v
    · simp
    · simp [h]
  · simp [h]

/-! ## Claim theorems -/

/-- C4: the urban and rural masks are disjoint as an invariant of the
threshold constants: no NDBI/NDVI value pair satisfies both predicates,
and on every scene list and pixel at most one of the two mask images
holds. -/
theorem C4_masks_disjoint :
    (∀ d v : ℚ,
      (decide (d > 1 / 10 ∧ v < 2 / 10) && decide (v > 3 / 10 ∧ d < -(1 / 10))) = false)
    ∧ ∀ (n : ℕ) (scenes : List (Scene n)) (i : Fin n),
        maskHolds (urbanMask scenes) i = false ∨ maskHolds (ruralMask scenes) i = false := by
  have key : ∀ d v : ℚ,
      (decide (d > 1 / 10 ∧ v < 2 / 10) && decide (v > 3 / 10 ∧ d < -(1 / 10))) = false := by
    intro d v
    rcases le_or_lt v (3 / 10) with h3 | h3
    · have hnr : ¬(v > 3 / 10 ∧ d < -(1 / 10)) := by
        rintro ⟨hv, -⟩
        linarith
      rw [decide_eq_false hnr, Bool.and_false]
    · have hnu : ¬(d > 1 / 10 ∧ v < 2 / 10) := by
        rintro ⟨-, hv⟩
        linarith
      rw [decide_eq_false hnu, Bool.false_and]
  refine ⟨key, fun n scenes i => ?_⟩
  rcases hb : ndbi scenes i with - | d
  · exact Or.inl (maskHolds_urban_none (Or.inl hb))
  · rcases hv : ndvi scenes i with - | v
    · exact Or.inl (maskHolds_urban_none (Or.inr hv))
    · have := key d v
      rcases Bool.and_eq_false_iff.mp this with h | h
      · exact Or.inl ((maskHolds_urban hb hv).trans h)
      · exact Or.inr ((maskHolds_rural hb hv).trans h)

/-- C3: where NDVI and NDBI are both defined, a pixel is in the urban
mask exactly when NDBI > 0.1 and NDVI < 0.2, in the rural mask exactly
when NDVI > 0.3 and NDBI < -0.1, and a pixel satisfying neither predicate
is in neither mask. -/
theorem C3_classification {n : ℕ} (scenes : List (Scene n)) (i : Fin n) (d v : ℚ)
    (hd : ndbi scenes i = some d) (hv : ndvi scenes i = some v) :
    (maskHolds (urbanMask scenes) i = true ↔ (d > 1 / 10 ∧ v < 2 / 10))
    ∧ (maskHolds (ruralMask scenes) i = true ↔ (v > 3 / 10 ∧ d < -(1 / 10)))
    ∧ (¬(d > 1 / 10 ∧ v < 2 / 10) → ¬(v > 3 / 10 ∧ d < -(1 / 10)) →
        maskHolds (urbanMask scenes) i = false ∧ maskHolds (ruralMask scenes) i = false) := by
  have hu : maskHolds (urbanMask scenes) i = true ↔ (d > 1 / 10 ∧ v < 2 / 10) := by
    rw [maskHolds_urban hd hv]
    exact decide_eq_true_iff
  have hr : maskHolds (ruralMask scenes) i = true ↔ (v > 3 / 10 ∧ d < -(1 / 10)) := by
    rw [maskHolds_rural hd hv]
    exact decide_eq_true_iff
  refine ⟨hu, hr, fun h1 h2 => ⟨?_, ?_⟩⟩
  · exact Bool.eq_false_iff.mpr (fun hmem => h1 (hu.mp hmem))
  · exact Bool.eq_false_iff.mpr (fun hmem => h2 (hr.mp hmem))

/-- Witness for C3: one concrete scene whose single pixel has NDVI 1/2
and NDBI -1/2, hence lies in the rural mask and not in the urban mask. -/
theorem C3_classification_witness :
    maskHolds (ruralMask [exSceneRural]) 0 = true
    ∧ maskHolds (urbanMask [exSceneRural]) 0 = false := by
  have hd : ndbi [exSceneRural] 0 = some (-(1 / 2)) := by
    norm_num [ndbi, medBand, exSceneRural, medianQ, normalizedDifference,
      List.insertionSort, List.orderedInsert, List.filterMap]
  have hv : ndvi [exSceneRural] 0 = some (1 / 2) := by
    norm_num [ndvi, medBand, exSceneRural, medianQ, normalizedDifference,
      List.insertionSort, List.orderedInsert, List.filterMap]
  obtain ⟨h1, h2, -⟩ := C3_classification [exSceneRural] 0 (-(1 / 2)) (1 / 2) hd hv
  refine ⟨h2.mpr (by norm_num), ?_⟩
  exact Bool.eq_false_iff.mpr (fun hmem => by have := h1.mp hmem; norm_num at this)

/-- C1: the scalar UHI intensity is the masked region mean of the LST
composite over the urban mask minus the masked region mean over the rural
mask, over the same geometry. -/
theorem C1_uhi_mean_difference {n : ℕ} (lst urban rural : Raster n) (g : Geom n)
    (u r : ℚ)
    (hu : regionMean (updateMaskR lst urban) g = some u)
    (hr : regionMean (updateMaskR lst rural) g = some r) :
    uhiStat (regionMean (updateMaskR lst urban) g)
      (regionMean (updateMaskR lst rural) g) = u - r := by
  rw [hu, hr]; rfl

/-- Witness for C1: on the synthetic 4-pixel raster with urban LST values
30 and 34 and rural LST values 24 and 26, the urban mean is 32, the rural
mean is 25, and the UHI intensity is 7. -/
theorem C1_uhi_mean_difference_witness :
    regionMean (updateMaskR exLst exUrban) exG = some 32
    ∧ regionMean (updateMaskR exLst exRural) exG = some 25
    ∧ uhiStat (regionMean (updateMaskR exLst exUrban) exG)
        (regionMean (updateMaskR exLst exRural) exG) = 7 := by
  have h32 : regionMean (updateMaskR exLst exUrban) exG = some 32 := by
    have hvp : validPixels (updateMaskR exLst exUrban) exG = {0, 1} := by decide
    have h0 : (updateMaskR exLst exUrban 0).getD 0 = 30 := by rfl
    have h1 : (updateMaskR exLst exUrban 1).getD 0 = 34 := by rfl
    simp [regionMean, hvp, Finset.sum_pair, h0, h1]
    norm_num
  have h25 : regionMean (updateMaskR exLst exRural) exG = some 25 := by
    have hvp : validPixels (updateMaskR exLst exRural) exG = {2, 3} := by decide
    have h2 : (updateMaskR exLst exRural 2).getD 0 = 24 := by rfl
    have h3 : (updateMaskR exLst exRural 3).getD 0 = 26 := by rfl
    simp [regionMean, hvp, Finset.sum_pair, h2, h3]
    norm_num
  refine ⟨h32, h25, ?_⟩
  rw [C1_uhi_mean_difference exLst exUrban exRural exG 32 25 h32 h25]
  norm_num

end UHI

namespace UHI

/-- C2: per-scene LST is the affine map `DN * 0.00341802 + 149.0 - 273.15`,
the period LST composite is the per-pixel arithmetic mean of the per-scene
LST rasters, NDVI and NDBI are normalized differences computed on the
per-pixel median composite of the same scene set, and on a concrete skewed
scene set the mean LST composite differs from a median one. -/
theorem C2_mean_median_asymmetry :
    (∀ t : ℕ, calculateLST t = (t : ℚ) * (341802 / 100000000) + 149 - 27315 / 100)
    ∧ (∀ (n : ℕ) (scenes : List (Scene n)) (boundary : Geom n) (i : Fin n),
        boundary i = true →
          lstMean scenes boundary i
            = meanComposite (scenes.map (fun s => (s.thermal i).map calculateLST)))
    ∧ (∀ (n : ℕ) (scenes : List (Scene n)) (i : Fin n),
        ndvi scenes i
          = normalizedDifference (medBand Scene.nir scenes i) (medBand Scene.red scenes i)
        ∧ ndbi scenes i
          = normalizedDifference (medBand Scene.swir scenes i) (medBand Scene.nir scenes i))
    ∧ lstMeanRaw exScenesSkew 0 ≠ lstMedian exScenesSkew 0 := by
  have h0 : calculateLST 0 = -2483 / 20 := by
    norm_num [calculateLST, scaleFactor, thermalOffset]
  have h30 : calculateLST 30000 = -108047 / 5000 := by
    norm_num [calculateLST, scaleFactor, thermalOffset]
  refine ⟨fun t => rfl, fun n scenes boundary i hb => ?_, fun n scenes i => ⟨rfl, rfl⟩, ?_⟩
  · simp only [lstMean, clip, hb, if_true]
    rfl
  · norm_num [lstMeanRaw, lstMedian, exScenesSkew, meanComposite, medianQ, lstScene,
      h0, h30, List.insertionSort, List.orderedInsert, List.filterMap]

/-- Witness for C2: the boundary-membership hypothesis discharged on a
concrete scene list and an all-true boundary. -/
theorem C2_mean_median_asymmetry_witness :
    lstMean exScenesSkew (fun _ => true) 0
      = meanComposite (exScenesSkew.map (fun s => (s.thermal 0).map calculateLST)) :=
  C2_mean_median_asymmetry.2.1 1 exScenesSkew (fun _ => true) 0 rfl

theorem uhiIntensity_shape {n : ℕ} (lst mraw : Raster n) (rm : ℚ) (i : Fin n) :
    updateMaskR (subConst (eeWhere lst (eeNot (selfMask mraw)) 0) rm) (selfMask mraw) i
      = if maskHolds (selfMask mraw) i = true
        then (lst i).map (fun v => v - rm) else none := by
  rcases h : mraw i with - | x
  · simp [updateMaskR, subConst, eeWhere, eeNot, selfMask, maskHolds, h]
  · by_cases hx : x = 0
    · simp [updateMaskR, subConst, eeWhere, eeNot, selfMask, maskHolds, h, hx]
    · rcases hl : lst i with - | w
      · simp [updateMaskR, subConst, eeWhere, eeNot, selfMask, maskHolds, h, hx, hl]
      · simp [updateMaskR, subConst, eeWhere, eeNot, selfMask, maskHolds, h, hx, hl]

/-- C6: the per-pixel UHI intensity raster equals LST minus the scalar
rural mean at every pixel where the urban mask holds, and is masked at
every other pixel. -/
theorem C6_uhi_raster {n : ℕ} (scenes : List (Scene n)) (boundary : Geom n)
    (rm : ℚ) (i : Fin n) :
    uhiIntensity scenes boundary rm i
      = if maskHolds (urbanMask scenes) i = true
        then (lstMean scenes boundary i).map (fun v => v - rm) else none :=
  uhiIntensity_shape (lstMean scenes boundary) (urbanMaskRaw scenes) rm i

/-- C7: wherever NDVI or NDBI is defined its value lies in [-1, 1], and a
pixel whose normalized-difference denominator is zero is an explicit
no-data pixel. -/
theorem C7_indices_safe : ∀ (n : ℕ) (scenes : List (Scene n)) (i : Fin n),
    (∀ x, ndvi scenes i = some x → -1 ≤ x ∧ x ≤ 1)
    ∧ (∀ x, ndbi scenes i = some x → -1 ≤ x ∧ x ≤ 1)
    ∧ (∀ a b, medBand Scene.nir scenes i = some a → medBand Scene.red scenes i = some b →
        a + b = 0 → ndvi scenes i = none)
    ∧ (∀ a b, medBand Scene.swir scenes i = some a → medBand Scene.nir scenes i = some b →
        a + b = 0 → ndbi scenes i = none) := by
  intro n scenes i
  refine ⟨?_, ?_, ?_, ?_⟩
  · intro x hx
    unfold ndvi at hx
    rcases ha : medBand Scene.nir scenes i with - | a
    · rw [ha] at hx
      exact Option.noConfusion hx
    · rcases hb : medBand Scene.red scenes i with - | b
      · rw [ha, hb] at hx
        exact Option.noConfusion hx
      · rw [ha, hb] at hx
        exact normalizedDifference_bounds (medBand_nonneg _ _ _ ha) (medBand_nonneg _ _ _ hb) hx
  · intro x hx
    unfold ndbi at hx
    rcases ha : medBand Scene.swir scenes i with - | a
    · rw [ha] at hx
      exact Option.noConfusion hx
    · rcases hb : medBand Scene.nir scenes i with - | b
      · rw [ha, hb] at hx
        exact Option.noConfusion hx
      · rw [ha, hb] at hx
        exact normalizedDifference_bounds (medBand_nonneg _ _ _ ha) (medBand_nonneg _ _ _ hb) hx
  · intro a b ha hb hab
    unfold ndvi
    rw [ha, hb]
    simp [normalizedDifference, hab]
  · intro a b ha hb hab
    unfold ndbi
    rw [ha, hb]
    simp [normalizedDifference, hab]

/-- Witness for C7: the single rural scene has NDVI 1/2, inside [-1, 1],
and the all-zero scene has a zero NDVI denominator and a masked NDVI
pixel. -/
theorem C7_indices_safe_witness :
    (-1 ≤ (1 : ℚ) / 2 ∧ (1 : ℚ) / 2 ≤ 1) ∧ ndvi [exSceneZero] 0 = none := by
  have hv : ndvi [exSceneRural] 0 = some (1 / 2) := by
    norm_num [ndvi, medBand, exSceneRural, medianQ, normalizedDifference,
      List.insertionSort, List.orderedInsert, List.filterMap]
  have hz : medBand Scene.nir [exSceneZero] 0 = some 0 := by
    norm_num [medBand, exSceneZero, medianQ, List.insertionSort, List.orderedInsert,
      List.filterMap]
  have hz2 : medBand Scene.red [exSceneZero] 0 = some 0 := by
    norm_num [medBand, exSceneZero, medianQ, List.insertionSort, List.orderedInsert,
      List.filterMap]
  refine ⟨(C7_indices_safe 1 [exSceneRural] 0).1 (1 / 2) hv, ?_⟩
  exact (C7_indices_safe 1 [exSceneZero] 0).2.2.1 0 0 hz hz2 (by norm_num)

end UHI

namespace UHI

/-- C5 (failing input): on an empty scene set every backend statistic
evaluates to null, yet the panel callback computes the UHI intensity by
JavaScript number coercion of the null operands and reports 0, not an
undefined value. -/
theorem C5_empty_scenes_zero_uhi :
    urbanTemp ([] : List (Scene 4)) exG = none
    ∧ ruralTemp ([] : List (Scene 4)) exG = none
    ∧ cityLST ([] : List (Scene 4)) exG exG = none
    ∧ uhiStat (urbanTemp ([] : List (Scene 4)) exG)
        (ruralTemp ([] : List (Scene 4)) exG) = 0 := by
  have h1 : urbanTemp ([] : List (Scene 4)) exG = none := by decide
  have h2 : ruralTemp ([] : List (Scene 4)) exG = none := by decide
  have h3 : cityLST ([] : List (Scene 4)) exG exG = none := by decide
  refine ⟨h1, h2, h3, ?_⟩
  rw [h1, h2]
  simp [uhiStat, jsNumber]

/-- C8: a region-mean request whose geometry pixel count exceeds the
configured cap fails with an aggregation-limit error, and any other
request within its own cap is computed normally, unaffected by that
failure. -/
theorem C8_aggregation_limit {n : ℕ} (r : Raster n) (g : Geom n) (cap : ℕ)
    (h : geomPixelCount g > cap) :
    reduceRegionMean r g cap = .error .aggregationLimitExceeded
    ∧ ∀ (m : ℕ) (r2 : Raster m) (g2 : Geom m) (cap2 : ℕ),
        geomPixelCount g2 ≤ cap2 →
          reduceRegionMean r2 g2 cap2 = .ok (regionMean r2 g2) := by
  refine ⟨?_, fun m r2 g2 cap2 h2 => ?_⟩
  · unfold reduceRegionMean
    rw [if_pos h]
  · unfold reduceRegionMean
    rw [if_neg (by omega)]

/-- Witness for C8: the 4-pixel geometry fails against a cap of 3 and
succeeds against a cap of 4. -/
theorem C8_aggregation_limit_witness :
    reduceRegionMean exLst exG 3 = .error .aggregationLimitExceeded
    ∧ reduceRegionMean exLst exG 4 = .ok (regionMean exLst exG) := by
  obtain ⟨h1, h2⟩ := C8_aggregation_limit exLst exG 3 (by decide)
  exact ⟨h1, h2 4 exLst exG 4 (by decide)⟩

theorem validPixels_addConst {n : ℕ} (r : Raster n) (g : Geom n) (c : ℚ) :
    validPixels (addConst r c) g = validPixels r g := by
  unfold validPixels addConst
  ext i
  simp [Finset.mem_filter, Option.isSome_map]

theorem regionMean_addConst {n : ℕ} (r : Raster n) (g : Geom n) (c : ℚ) :
    regionMean (addConst r c) g = (regionMean r g).map (fun u => u + c) := by
  unfold regionMean
  rw [validPixels_addConst]
  by_cases hc : (validPixels r g).card = 0
  · simp [hc]
  · rw [if_neg hc, if_neg hc]
    have hv : ∀ i ∈ validPixels r g, (addConst r c i).getD 0 = (r i).getD 0 + c := by
      intro i hi
      simp only [validPixels, Finset.mem_filter, Bool.and_eq_true] at hi
      obtain ⟨w, hw⟩ := Option.isSome_iff_exists.mp hi.2.2
      simp [addConst, hw]
    rw [Finset.sum_congr rfl hv, Finset.sum_add_distrib, Finset.sum_const, nsmul_eq_mul]
    have hcard : ((validPixels r g).card : ℚ) ≠ 0 := Nat.cast_ne_zero.mpr hc
    simp only [Option.map_some']
    congr 1
    field_simp
    ring

theorem updateMaskR_addConst {n : ℕ} (lst m : Raster n) (c : ℚ) :
    updateMaskR (addConst lst c) m = addConst (updateMaskR lst m) c := by
  funext i
  rcases hm : m i with - | x
  · simp [updateMaskR, addConst, hm]
  · by_cases hx : x = 0 <;> simp [updateMaskR, addConst, hm, hx]

/-- C9: adding the same constant to every pixel of the LST composite
leaves the scalar UHI intensity unchanged, both region means shifting by
exactly that constant. -/
theorem C9_shift_invariance {n : ℕ} (lst urban rural : Raster n) (g : Geom n) (c : ℚ)
    (hu : (regionMean (updateMaskR lst urban) g).isSome = true)
    (hr : (regionMean (updateMaskR lst rural) g).isSome = true) :
    uhiStat (regionMean (updateMaskR (addConst lst c) urban) g)
        (regionMean (updateMaskR (addConst lst c) rural) g)
      = uhiStat (regionMean (updateMaskR lst urban) g)
          (regionMean (updateMaskR lst rural) g) := by
  rw [updateMaskR_addConst, updateMaskR_addConst, regionMean_addConst, regionMean_addConst]
  obtain ⟨u, hu'⟩ := Option.isSome_iff_exists.mp hu
  obtain ⟨r, hr'⟩ := Option.isSome_iff_exists.mp hr
  rw [hu', hr']
  simp [uhiStat, jsNumber]

/-- Witness for C9: shifting the synthetic 4-pixel raster by 5 leaves its
UHI intensity unchanged. -/
theorem C9_shift_invariance_witness :
    uhiStat (regionMean (updateMaskR (addConst exLst 5) exUrban) exG)
        (regionMean (updateMaskR (addConst exLst 5) exRural) exG)
      = uhiStat (regionMean (updateMaskR exLst exUrban) exG)
          (regionMean (updateMaskR exLst exRural) exG) :=
  C9_shift_invariance exLst exUrban exRural exG 5 (by decide) (by decide)

theorem validPixels_clip {n : ℕ} (r : Raster n) (b buf : Geom n) :
    validPixels (clip r b) buf = validPixels r (fun i => buf i && b i) := by
  unfold validPixels clip
  ext i
  rcases hb : b i <;> rcases hbuf : buf i <;> simp [hb, hbuf]

theorem regionMean_clip {n : ℕ} (r : Raster n) (b buf : Geom n) :
    regionMean (clip r b) buf = regionMean r (fun i => buf i && b i) := by
  unfold regionMean
  rw [validPixels_clip]
  by_cases hc : (validPixels r (fun i => buf i && b i)).card = 0
  · simp [hc]
  · rw [if_neg hc, if_neg hc]
    have hv : ∀ i ∈ validPixels r (fun i => buf i && b i),
        (clip r b i).getD 0 = (r i).getD 0 := by
      intro i hi
      simp only [validPixels, Finset.mem_filter, Bool.and_eq_true] at hi
      simp [clip, hi.2.1.2]
    rw [Finset.sum_congr rfl hv]

/-- C10: the city mean aggregates only pixels in the intersection of the
city buffer and the boundary, because the composite is clipped to the
boundary before the buffer aggregation; a buffer with no valid clipped
pixel yields an undefined mean. -/
theorem C10_city_mean_clipped : ∀ (n : ℕ) (scenes : List (Scene n))
    (boundary buffer : Geom n),
    cityLST scenes boundary buffer
      = regionMean (lstMeanRaw scenes) (fun i => buffer i && boundary i)
    ∧ (validPixels (lstMean scenes boundary) buffer = ∅ →
        cityLST scenes boundary buffer = none) := by
  intro n scenes boundary buffer
  constructor
  · exact regionMean_clip (lstMeanRaw scenes) boundary buffer
  · intro hempty
    unfold cityLST regionMean
    simp [hempty]

/-- Witness for C10: with a boundary on the first two pixels and a buffer
on the last two, the buffer holds no valid clipped pixel and the city
mean is undefined. -/
theorem C10_city_mean_clipped_witness :
    cityLST [exScene4] exBoundary exBuffer = none :=
  (C10_city_mean_clipped 4 [exScene4] exBoundary exBuffer).2 (by decide)

end UHI
